import Mathlib

/-!
Shallow embedding of the cufile-python repository (src/cufile/bindings.py and
src/cufile/cufile.py) for verifying its natural-language specification.

Modelling conventions:
- Native cuFile calls and OS calls are external effects.  Each operation of the
  embedding takes the outcomes of the external calls it may perform as explicit
  oracle arguments (the native status struct returned by the library, the file
  descriptor returned by the OS open, the pointer value filled into the
  registered handle, the byte count returned by a native read or write), and
  returns, besides its result, the list of external calls it actually issued
  (an event trace).  Claims about call counts and ordering are claims about
  that trace.
- Python exceptions are modelled with the Except monad over PyError.  The
  exception classes raised by the source map as follows: KeyError from the
  mode-dictionary lookup in _os_mode, RuntimeError raised by bindings._ck on a
  nonzero native status (carrying the failing call name and the status), the
  OSError from os.open (carrying an errno), and the IOError raised by
  CuFile.read and CuFile.write when the file is not open.  These play the roles
  the specification names InvalidModeError, HandleRegisterError or
  DriverInitError, OsOpenError, and NotOpenError.
- os.close is modelled as always succeeding, matching the specification of the
  consumed OS capability close(fd) -> ().
- Mutable attribute assignment in Python is modelled by explicit state passing:
  a statement that raises before an assignment leaves the field unchanged, so
  in CuFile.open the fd assignment to _handle happens before the registration
  call, exactly as in the source.
-/

set_option autoImplicit false

namespace CufilePython

/-! ### OS open-flag constants (Linux values of the os.O_* constants used) -/

def O_RDONLY : Nat := 0
def O_WRONLY : Nat := 1
def O_RDWR : Nat := 2
def O_CREAT : Nat := 64
def O_TRUNC : Nat := 512
def O_APPEND : Nat := 1024
def O_DIRECT : Nat := 16384

/-! ### bindings.py -/

/-- The CUfileError status struct returned by the native library:
fields err (cuFile error) and cu_err (underlying CUDA error). -/
structure CUfileError where
  err : Int
  cu_err : Int
deriving DecidableEq, Repr

/-- Python exception values the source can raise. -/
inductive PyError where
  /-- KeyError raised by the dictionary lookup in _os_mode. -/
  | keyError (mode : String)
  /-- RuntimeError raised by bindings._ck, carrying the native call name and
  the CUfileError status. -/
  | runtimeError (callName : String) (status : CUfileError)
  /-- OSError raised by os.open, carrying the platform errno. -/
  | osError (errno : Int)
  /-- IOError raised by CuFile.read and CuFile.write while not open. -/
  | ioError (msg : String)
deriving DecidableEq, Repr

/-- bindings._ck: raises RuntimeError iff the native status has err different
from 0. -/
def _ck (status : CUfileError) (callName : String) : Except PyError Unit :=
  if status.err ≠ 0 then .error (.runtimeError callName status) else .ok ()

/-- bindings.cuFileDriverOpen: checks the native status with _ck. -/
def cuFileDriverOpen (nativeStatus : CUfileError) : Except PyError Unit :=
  _ck nativeStatus "cuFileDriverOpen"

/-- bindings.cuFileHandleRegister: issues the native registration for fd,
checks the status with _ck, and returns the handle value the native call
produced.  The native outcome is the oracle pair (nativeStatus, nativeHandle). -/
def cuFileHandleRegister (fd : Nat) (nativeStatus : CUfileError)
    (nativeHandle : Nat) : Except PyError Nat :=
  match _ck nativeStatus "cuFileHandleRegister" with
  | .error e => .error e
  | .ok _ => .ok nativeHandle

/-- bindings.cuFileHandleDeregister: the source issues the native call and
DISCARDS its status (the line is a tuple expression, not a _ck call), so this
wrapper never raises, whatever the native status is. -/
def cuFileHandleDeregister (handle : Option Nat) (nativeStatus : CUfileError) :
    Unit :=
  ()

/-! ### Event traces of external calls -/

/-- One external call issued by the wrapper: an OS call or a native cuFile
library call. -/
inductive Event where
  | osOpen (path : String) (flags : Nat)
  | osClose (fd : Nat)
  | natDriverOpen
  | natHandleRegister (fd : Nat)
  | natHandleDeregister (handle : Option Nat)
  | natRead (handle : Option Nat) (buf : Nat) (size fileOffset devOffset : Int)
  | natWrite (handle : Option Nat) (buf : Nat) (size fileOffset devOffset : Int)
deriving DecidableEq, Repr

def Event.isOsOpen : Event → Bool
  | .osOpen _ _ => true
  | _ => false

def Event.isOsClose : Event → Bool
  | .osClose _ => true
  | _ => false

def Event.isDriverOpen : Event → Bool
  | .natDriverOpen => true
  | _ => false

def Event.isHandleRegister : Event → Bool
  | .natHandleRegister _ => true
  | _ => false

def Event.isHandleDeregister : Event → Bool
  | .natHandleDeregister _ => true
  | _ => false

def countOsOpen (tr : List Event) : Nat := (tr.filter Event.isOsOpen).length

def countOsClose (tr : List Event) : Nat := (tr.filter Event.isOsClose).length

def countDriverOpen (tr : List Event) : Nat :=
  (tr.filter Event.isDriverOpen).length

def countHandleRegister (tr : List Event) : Nat :=
  (tr.filter Event.isHandleRegister).length

def countHandleDeregister (tr : List Event) : Nat :=
  (tr.filter Event.isHandleDeregister).length

/-! ### cufile.py: the _singleton decorator and CuFileDriver -/

/-- State of the _instances dictionary captured by the _singleton decorator
applied to CuFileDriver: whether the dictionary already holds the instance. -/
structure DriverState where
  hasInstance : Bool
deriving DecidableEq, Repr

/-- Calling CuFileDriver() through the _singleton wrapper: if the instance
already exists it is returned with no native call; otherwise
CuFileDriver.__init__ runs, invoking the native driver open.  If the native
open reports failure, _ck raises and no instance is stored. -/
def CuFileDriver.call (ds : DriverState) (driverStatus : CUfileError) :
    DriverState × List Event × Except PyError Unit :=
  if ds.hasInstance then (ds, [], .ok ())
  else
    match cuFileDriverOpen driverStatus with
    | .error e => (ds, [.natDriverOpen], .error e)
    | .ok _ => ({ hasInstance := true }, [.natDriverOpen], .ok ())

/-! ### cufile.py: _os_mode and the CuFile instance state -/

/-- cufile._os_mode: the mode-string-to-OS-flags dictionary; a mode outside
the six keys is a KeyError, modelled as none. -/
def _os_mode (mode : String) : Option Nat :=
  if mode = "r" then some O_RDONLY
  else if mode = "r+" then some O_RDWR
  else if mode = "w" then some (O_CREAT ||| O_WRONLY ||| O_TRUNC)
  else if mode = "w+" then some (O_CREAT ||| O_RDWR ||| O_TRUNC)
  else if mode = "a" then some (O_CREAT ||| O_WRONLY ||| O_APPEND)
  else if mode = "a+" then some (O_CREAT ||| O_RDWR ||| O_APPEND)
  else none

/-- The mutable attributes of a CuFile instance: _path, _mode, _os_mode (the
derived flags), _handle (the OS file descriptor, None while closed) and
_cu_file_handle (the registered native handle, None while closed). -/
structure CuFileSt where
  path : String
  mode : String
  os_mode : Nat
  handle : Option Nat
  cu_file_handle : Option Nat
deriving DecidableEq, Repr

/-- CuFile.is_open: true iff the _handle attribute is not None. -/
def CuFileSt.is_open (st : CuFileSt) : Bool := st.handle.isSome

/-- CuFile.__init__: acquires the driver singleton first, then stores path and
mode, then derives the OS flags via _os_mode (raising KeyError on an
unrecognized mode), then ORs in O_DIRECT when use_direct_io is set, and
initializes _handle and _cu_file_handle to None.  The driver oracle is the
native status a first-time driver open would report. -/
def CuFile.init (ds : DriverState) (driverStatus : CUfileError)
    (path mode : String) (useDirect : Bool) :
    DriverState × List Event × Except PyError CuFileSt :=
  match CuFileDriver.call ds driverStatus with
  | (ds1, ev, .error e) => (ds1, ev, .error e)
  | (ds1, ev, .ok _) =>
    match _os_mode mode with
    | none => (ds1, ev, .error (.keyError mode))
    | some m =>
      let flags := if useDirect then m ||| O_DIRECT else m
      (ds1, ev, .ok { path := path, mode := mode, os_mode := flags,
                      handle := none, cu_file_handle := none })

/-- CuFile.open: returns at once if already open; otherwise issues os.open
(the oracle osRes gives its outcome: an fd or an OSError errno, and a raised
OSError leaves _handle unassigned), assigns the fd to _handle, then issues the
native registration (oracles regStatus and regHandle).  If registration
raises, the error propagates with _handle still holding the fd and no close
issued. -/
def CuFile.openFile (st : CuFileSt) (osRes : Except Int Nat)
    (regStatus : CUfileError) (regHandle : Nat) :
    CuFileSt × List Event × Except PyError Unit :=
  if st.is_open then (st, [], .ok ())
  else
    match osRes with
    | .error errno => (st, [.osOpen st.path st.os_mode], .error (.osError errno))
    | .ok fd =>
      let st1 : CuFileSt := { st with handle := some fd }
      match cuFileHandleRegister fd regStatus regHandle with
      | .error e =>
        (st1, [.osOpen st.path st.os_mode, .natHandleRegister fd], .error e)
      | .ok h =>
        ({ st1 with cu_file_handle := some h },
         [.osOpen st.path st.os_mode, .natHandleRegister fd], .ok ())

/-- CuFile.close: returns at once if not open; otherwise issues the native
deregistration (whose status the binding discards, so it cannot raise), then
os.close on the stored fd, then clears both attributes.  The oracle
deregStatus is the status the native deregistration would report. -/
def CuFile.close (st : CuFileSt) (deregStatus : CUfileError) :
    CuFileSt × List Event × Except PyError Unit :=
  if st.is_open then
    let _ := cuFileHandleDeregister st.cu_file_handle deregStatus
    ({ st with handle := none, cu_file_handle := none },
     [.natHandleDeregister st.cu_file_handle, .osClose (st.handle.getD 0)],
     .ok ())
  else (st, [], .ok ())

/-- CuFile.read: raises IOError if not open, without issuing any native call;
otherwise issues the native read and returns the byte count the native call
reports (oracle nativeRet). -/
def CuFile.read (st : CuFileSt) (dest : Nat) (size fileOffset devOffset : Int)
    (nativeRet : Nat) : List Event × Except PyError Nat :=
  if st.is_open then
    ([.natRead st.cu_file_handle dest size fileOffset devOffset], .ok nativeRet)
  else ([], .error (.ioError "File is not open."))

/-- CuFile.write: raises IOError if not open, without issuing any native call;
otherwise issues the native write and returns the byte count the native call
reports (oracle nativeRet). -/
def CuFile.write (st : CuFileSt) (src : Nat) (size fileOffset devOffset : Int)
    (nativeRet : Nat) : List Event × Except PyError Nat :=
  if st.is_open then
    ([.natWrite st.cu_file_handle src size fileOffset devOffset], .ok nativeRet)
  else ([], .error (.ioError "File is not open."))

/-! ### Reachable instance states -/

/-- States of a CuFile instance reachable by any sequence of construct, open
and close operations under arbitrary external-call outcomes, including
sequences in which a call raised.  read and write never assign to the
attributes, so they add no constructor. -/
inductive Reachable : CuFileSt → Prop where
  | construct (ds : DriverState) (driverStatus : CUfileError)
      (path mode : String) (useDirect : Bool) (st : CuFileSt)
      (h : (CuFile.init ds driverStatus path mode useDirect).2.2 = .ok st) :
      Reachable st
  | openStep (st : CuFileSt) (osRes : Except Int Nat)
      (regStatus : CUfileError) (regHandle : Nat) (h : Reachable st) :
      Reachable (CuFile.openFile st osRes regStatus regHandle).1
  | closeStep (st : CuFileSt) (deregStatus : CUfileError) (h : Reachable st) :
      Reachable (CuFile.close st deregStatus).1

/-- Like Reachable, but the native registration succeeds whenever open
attempts it (the OS open may still fail). -/
inductive ReachableOk : CuFileSt → Prop where
  | construct (ds : DriverState) (driverStatus : CUfileError)
      (path mode : String) (useDirect : Bool) (st : CuFileSt)
      (h : (CuFile.init ds driverStatus path mode useDirect).2.2 = .ok st) :
      ReachableOk st
  | openStep (st : CuFileSt) (osRes : Except Int Nat)
      (regStatus : CUfileError) (regHandle : Nat) (hreg : regStatus.err = 0)
      (h : ReachableOk st) :
      ReachableOk (CuFile.openFile st osRes regStatus regHandle).1
  | closeStep (st : CuFileSt) (deregStatus : CUfileError) (h : ReachableOk st) :
      ReachableOk (CuFile.close st deregStatus).1

/-! ### Concrete states used by the witnesses and counterexamples -/

/-- The state of a freshly constructed CuFile("/tmp/t.bin", "r"). -/
def initSt : CuFileSt :=
  { path := "/tmp/t.bin", mode := "r", os_mode := O_RDONLY,
    handle := none, cu_file_handle := none }

/-- The state left behind when open() on initSt gets fd 42 from the OS and
the native registration then fails with status err = -2, cu_err = 100. -/
def leakSt : CuFileSt :=
  (CuFile.openFile initSt (.ok 42) { err := -2, cu_err := 100 } 0).1

/-- The state after a fully successful open() on initSt: fd 42, native
handle value 7. -/
def openSt : CuFileSt :=
  (CuFile.openFile initSt (.ok 42) { err := 0, cu_err := 0 } 7).1

/-- initSt is what CuFile.init returns on a fresh process with mode "r". -/
lemma initSt_constructed :
    (CuFile.init { hasInstance := false } { err := 0, cu_err := 0 }
      "/tmp/t.bin" "r" false).2.2 = .ok initSt := by
  rfl

lemma reachable_initSt : Reachable initSt :=
  .construct { hasInstance := false } { err := 0, cu_err := 0 }
    "/tmp/t.bin" "r" false initSt initSt_constructed

lemma reachableOk_initSt : ReachableOk initSt :=
  .construct { hasInstance := false } { err := 0, cu_err := 0 }
    "/tmp/t.bin" "r" false initSt initSt_constructed

/-- The OS flags stored by a successful construction on a fresh process, or
none when the construction raises. -/
def initFlags (mode : String) (useDirect : Bool) : Option Nat :=
  match (CuFile.init { hasInstance := false } { err := 0, cu_err := 0 }
      "/tmp/t.bin" mode useDirect).2.2 with
  | .ok st => some st.os_mode
  | .error _ => none

/-- A mode outside the six dictionary keys makes _os_mode a KeyError. -/
lemma _os_mode_eq_none (mode : String)
    (h : mode ∉ ["r", "r+", "w", "w+", "a", "a+"]) : _os_mode mode = none := by
  simp only [List.mem_cons, List.not_mem_nil, or_false, not_or] at h
  obtain ⟨h1, h2, h3, h4, h5, h6⟩ := h
  simp [_os_mode, h1, h2, h3, h4, h5, h6]

/-! ### Claim theorems -/

/-- C4: read() and write() on a handle whose descriptor is absent (the Closed
state) raise the not-open IOError and issue no external call at all (empty
event trace), for every argument tuple. -/
theorem C4_read_write_closed_raise (st : CuFileSt) (h : st.handle = none)
    (buf : Nat) (size fileOffset devOffset : Int) (nativeRet : Nat) :
    CuFile.read st buf size fileOffset devOffset nativeRet =
        ([], .error (.ioError "File is not open.")) ∧
    CuFile.write st buf size fileOffset devOffset nativeRet =
        ([], .error (.ioError "File is not open.")) := by
  simp [CuFile.read, CuFile.write, CuFileSt.is_open, h]

/-- Witness for C4 at the freshly constructed state. -/
theorem C4_witness :
    initSt.handle = none ∧
    (CuFile.read initSt 4096 1024 0 0 1024 =
        ([], .error (.ioError "File is not open.")) ∧
     CuFile.write initSt 4096 1024 0 0 1024 =
        ([], .error (.ioError "File is not open."))) :=
  ⟨rfl, C4_read_write_closed_raise initSt rfl 4096 1024 0 0 1024⟩

/-- C5: for each of the six recognized modes, the flags derived at
construction are exactly the table of §4.2, and requesting direct I/O
additionally ORs in O_DIRECT. -/
theorem C5_mode_flag_table :
    initFlags "r" false = some O_RDONLY ∧
    initFlags "r+" false = some O_RDWR ∧
    initFlags "w" false = some (O_CREAT ||| O_WRONLY ||| O_TRUNC) ∧
    initFlags "w+" false = some (O_CREAT ||| O_RDWR ||| O_TRUNC) ∧
    initFlags "a" false = some (O_CREAT ||| O_WRONLY ||| O_APPEND) ∧
    initFlags "a+" false = some (O_CREAT ||| O_RDWR ||| O_APPEND) ∧
    initFlags "r" true = some (O_RDONLY ||| O_DIRECT) ∧
    initFlags "r+" true = some (O_RDWR ||| O_DIRECT) ∧
    initFlags "w" true = some (O_CREAT ||| O_WRONLY ||| O_TRUNC ||| O_DIRECT) ∧
    initFlags "w+" true = some (O_CREAT ||| O_RDWR ||| O_TRUNC ||| O_DIRECT) ∧
    initFlags "a" true = some (O_CREAT ||| O_WRONLY ||| O_APPEND ||| O_DIRECT) ∧
    initFlags "a+" true = some (O_CREAT ||| O_RDWR ||| O_APPEND ||| O_DIRECT) :=
  ⟨rfl, rfl, rfl, rfl, rfl, rfl, rfl, rfl, rfl, rfl, rfl, rfl⟩

/-- C6: constructing with a mode outside the six recognized values fails with
the KeyError from the mode dictionary (the InvalidModeError of the spec),
whatever the driver state, a succeeding driver status, path, and direct-I/O
request. -/
theorem C6_invalid_mode_raises (mode : String)
    (hm : mode ∉ ["r", "r+", "w", "w+", "a", "a+"])
    (ds : DriverState) (driverStatus : CUfileError)
    (hd : driverStatus.err = 0) (path : String) (useDirect : Bool) :
    (CuFile.init ds driverStatus path mode useDirect).2.2 =
      .error (.keyError mode) := by
  have hn := _os_mode_eq_none mode hm
  rcases ds with ⟨hi⟩
  cases hi <;> simp [CuFile.init, CuFileDriver.call, cuFileDriverOpen, _ck, hd, hn]

/-- Witness for C6 at mode "x". -/
theorem C6_witness :
    "x" ∉ ["r", "r+", "w", "w+", "a", "a+"] ∧
    ({ err := 0, cu_err := 0 } : CUfileError).err = 0 ∧
    (CuFile.init { hasInstance := false } { err := 0, cu_err := 0 }
        "/tmp/t.bin" "x" false).2.2 = .error (.keyError "x") :=
  ⟨by decide, rfl,
   C6_invalid_mode_raises "x" (by decide) { hasInstance := false }
     { err := 0, cu_err := 0 } rfl "/tmp/t.bin" false⟩

/-- C7: from a Closed state, a successful open() performs exactly one OS open
and one native registration and transitions to Open; a second open() right
after, under arbitrary external outcomes, issues no call at all, leaves the
state unchanged, and returns normally: across the two calls the OS open and
the registration each happen exactly once. -/
theorem C7_idempotent_open (st : CuFileSt) (h : st.handle = none)
    (fd regHandle : Nat) (regStatus : CUfileError) (hreg : regStatus.err = 0)
    (osRes2 : Except Int Nat) (regStatus2 : CUfileError) (regHandle2 : Nat) :
    CuFile.openFile st (.ok fd) regStatus regHandle =
      ({ st with handle := some fd, cu_file_handle := some regHandle },
       [.osOpen st.path st.os_mode, .natHandleRegister fd], .ok ()) ∧
    CuFile.openFile
        { st with handle := some fd, cu_file_handle := some regHandle }
        osRes2 regStatus2 regHandle2 =
      ({ st with handle := some fd, cu_file_handle := some regHandle },
       [], .ok ()) ∧
    CuFileSt.is_open
        { st with handle := some fd, cu_file_handle := some regHandle } = true ∧
    countOsOpen ([.osOpen st.path st.os_mode, .natHandleRegister fd] ++
        ([] : List Event)) = 1 ∧
    countHandleRegister ([.osOpen st.path st.os_mode, .natHandleRegister fd] ++
        ([] : List Event)) = 1 := by
  refine ⟨?_, ?_, ?_, ?_, ?_⟩
  · simp [CuFile.openFile, cuFileHandleRegister, _ck, CuFileSt.is_open, h, hreg]
  · simp [CuFile.openFile, CuFileSt.is_open]
  · simp [CuFileSt.is_open]
  · simp [countOsOpen, Event.isOsOpen]
  · simp [countHandleRegister, Event.isHandleRegister]

/-- Witness for C7: fresh state, fd 42, native handle 7; the second call is
given a different fd and a failing status and still does nothing. -/
theorem C7_witness :
    initSt.handle = none ∧
    ({ err := 0, cu_err := 0 } : CUfileError).err = 0 ∧
    (CuFile.openFile initSt (.ok 42) { err := 0, cu_err := 0 } 7 =
      ({ initSt with handle := some 42, cu_file_handle := some 7 },
       [.osOpen initSt.path initSt.os_mode, .natHandleRegister 42], .ok ()) ∧
    CuFile.openFile { initSt with handle := some 42, cu_file_handle := some 7 }
        (.ok 43) { err := -1, cu_err := 0 } 9 =
      ({ initSt with handle := some 42, cu_file_handle := some 7 }, [], .ok ()) ∧
    CuFileSt.is_open
        { initSt with handle := some 42, cu_file_handle := some 7 } = true ∧
    countOsOpen ([.osOpen initSt.path initSt.os_mode, .natHandleRegister 42] ++
        ([] : List Event)) = 1 ∧
    countHandleRegister
        ([.osOpen initSt.path initSt.os_mode, .natHandleRegister 42] ++
        ([] : List Event)) = 1) :=
  ⟨rfl, rfl,
   C7_idempotent_open initSt rfl 42 7 { err := 0, cu_err := 0 } rfl
     (.ok 43) { err := -1, cu_err := 0 } 9⟩

/-- C8: from an Open state, close() performs exactly one native
deregistration followed by one OS close and clears both attributes; a second
close() right after issues no call, leaves the state unchanged and returns
normally, so across the two calls each happens exactly once; and close() on
any state whose descriptor is absent (in particular a never-opened handle)
performs no call at all. -/
theorem C8_idempotent_close (st : CuFileSt) (fd : Nat)
    (h : st.handle = some fd) (deregStatus1 deregStatus2 : CUfileError) :
    CuFile.close st deregStatus1 =
      ({ st with handle := none, cu_file_handle := none },
       [.natHandleDeregister st.cu_file_handle, .osClose fd], .ok ()) ∧
    CuFile.close { st with handle := none, cu_file_handle := none }
        deregStatus2 =
      ({ st with handle := none, cu_file_handle := none }, [], .ok ()) ∧
    countHandleDeregister
        ([.natHandleDeregister st.cu_file_handle, .osClose fd] ++
        ([] : List Event)) = 1 ∧
    countOsClose ([.natHandleDeregister st.cu_file_handle, .osClose fd] ++
        ([] : List Event)) = 1 ∧
    (∀ st2 : CuFileSt, st2.handle = none → ∀ d : CUfileError,
        CuFile.close st2 d = (st2, [], .ok ())) := by
  refine ⟨?_, ?_, ?_, ?_, ?_⟩
  · simp [CuFile.close, CuFileSt.is_open, h]
  · simp [CuFile.close, CuFileSt.is_open]
  · simp [countHandleDeregister, Event.isHandleDeregister]
  · simp [countOsClose, Event.isOsClose]
  · intro st2 h2 d
    simp [CuFile.close, CuFileSt.is_open, h2]

/-- Witness for C8 at the successfully opened state, with failing
deregistration statuses on both calls. -/
theorem C8_witness :
    openSt.handle = some 42 ∧
    (CuFile.close openSt { err := -1, cu_err := 5 } =
      ({ openSt with handle := none, cu_file_handle := none },
       [.natHandleDeregister openSt.cu_file_handle, .osClose 42], .ok ()) ∧
    CuFile.close { openSt with handle := none, cu_file_handle := none }
        { err := -1, cu_err := 5 } =
      ({ openSt with handle := none, cu_file_handle := none }, [], .ok ()) ∧
    countHandleDeregister
        ([.natHandleDeregister openSt.cu_file_handle, .osClose 42] ++
        ([] : List Event)) = 1 ∧
    countOsClose ([.natHandleDeregister openSt.cu_file_handle, .osClose 42] ++
        ([] : List Event)) = 1 ∧
    (∀ st2 : CuFileSt, st2.handle = none → ∀ d : CUfileError,
        CuFile.close st2 d = (st2, [], .ok ()))) :=
  ⟨rfl, C8_idempotent_close openSt 42 rfl { err := -1, cu_err := 5 }
    { err := -1, cu_err := 5 }⟩

/-- C10: on a fresh process (no driver instance yet), a construction whose
mode is unrecognized still invokes the native driver open (the singleton is
acquired before the mode is validated) and then raises the KeyError: the
driver-open side effect happens even though the construction fails. -/
theorem C10_driver_open_precedes_mode_validation (path mode : String)
    (useDirect : Bool) (hm : _os_mode mode = none) :
    CuFile.init { hasInstance := false } { err := 0, cu_err := 0 }
        path mode useDirect =
      ({ hasInstance := true }, [.natDriverOpen], .error (.keyError mode)) := by
  simp [CuFile.init, CuFileDriver.call, cuFileDriverOpen, _ck, hm]

/-- Witness for C10 at mode "x". -/
theorem C10_witness :
    _os_mode "x" = none ∧
    CuFile.init { hasInstance := false } { err := 0, cu_err := 0 }
        "/tmp/t.bin" "x" false =
      ({ hasInstance := true }, [.natDriverOpen], .error (.keyError "x")) :=
  ⟨rfl, C10_driver_open_precedes_mode_validation "/tmp/t.bin" "x" false rfl⟩

/-! ### Repeated constructions in one process (for the singleton claim) -/

/-- n successive constructions CuFile("/tmp/t.bin", "r") in one process,
threading the singleton dictionary state and concatenating the event traces;
the native driver open, whenever attempted, reports success. -/
def constructMany : DriverState → Nat → DriverState × List Event
  | ds, 0 => (ds, [])
  | ds, n + 1 =>
    let r := CuFile.init ds { err := 0, cu_err := 0 } "/tmp/t.bin" "r" false
    let rest := constructMany r.1 n
    (rest.1, r.2.1 ++ rest.2)

/-- Once the singleton instance exists, a construction returns it with no
event and leaves the dictionary unchanged. -/
lemma init_existing_instance (ds : DriverState) (hi : ds.hasInstance = true)
    (driverStatus : CUfileError) (path mode : String) (useDirect : Bool) :
    (CuFile.init ds driverStatus path mode useDirect).1 = ds ∧
    (CuFile.init ds driverStatus path mode useDirect).2.1 = [] := by
  unfold CuFile.init CuFileDriver.call
  rw [hi]
  cases _os_mode mode <;> simp

/-- Once the singleton instance exists, any number of further constructions
emit no event at all. -/
lemma constructMany_existing (n : Nat) (ds : DriverState)
    (hi : ds.hasInstance = true) : constructMany ds n = (ds, []) := by
  induction n generalizing ds with
  | zero => rfl
  | succ m ih =>
    obtain ⟨h1, h2⟩ := init_existing_instance ds hi
      { err := 0, cu_err := 0 } "/tmp/t.bin" "r" false
    simp [constructMany, h1, h2, ih ds hi]

/-- One unfolding step of constructMany. -/
lemma constructMany_succ (ds : DriverState) (n : Nat) :
    constructMany ds (n + 1) =
      ((constructMany
          (CuFile.init ds { err := 0, cu_err := 0 } "/tmp/t.bin" "r" false).1
          n).1,
       (CuFile.init ds { err := 0, cu_err := 0 } "/tmp/t.bin" "r" false).2.1 ++
         (constructMany
            (CuFile.init ds { err := 0, cu_err := 0 } "/tmp/t.bin" "r" false).1
            n).2) := rfl

/-- C9: in a fresh process, constructing any positive number of file handles
invokes the native driver open exactly once; and whenever the singleton
instance already exists, acquiring the driver returns the existing instance
with no native call at all. -/
theorem C9_singleton_driver (n : Nat) (hn : 1 ≤ n) :
    countDriverOpen (constructMany { hasInstance := false } n).2 = 1 ∧
    (∀ (ds : DriverState) (s : CUfileError), ds.hasInstance = true →
        CuFileDriver.call ds s = (ds, [], .ok ())) := by
  constructor
  · obtain ⟨m, rfl⟩ : ∃ m, n = m + 1 :=
      ⟨n - 1, (Nat.succ_pred_eq_of_pos hn).symm⟩
    rw [constructMany_succ]
    have h1 : (CuFile.init { hasInstance := false } { err := 0, cu_err := 0 }
        "/tmp/t.bin" "r" false).1 = { hasInstance := true } := rfl
    have h2 : (CuFile.init { hasInstance := false } { err := 0, cu_err := 0 }
        "/tmp/t.bin" "r" false).2.1 = [.natDriverOpen] := rfl
    rw [h1, h2, constructMany_existing m { hasInstance := true } rfl]
    rfl
  · intro ds s hi
    simp [CuFileDriver.call, hi]

/-- Witness for C9 at two constructions. -/
theorem C9_witness :
    1 ≤ 2 ∧
    (countDriverOpen (constructMany { hasInstance := false } 2).2 = 1 ∧
     (∀ (ds : DriverState) (s : CUfileError), ds.hasInstance = true →
        CuFileDriver.call ds s = (ds, [], .ok ()))) :=
  ⟨by decide, C9_singleton_driver 2 (by decide)⟩

/-! ### Register-failure behaviour of open (claims C1 and C2) -/

/-- C1 counterexample: from the freshly constructed state, the OS open yields
fd 42 and the native registration fails with status err = -2, cu_err = 100.
The registration error propagates, but the event trace of the call holds NO
OS close at all, refuting that the descriptor is closed exactly once before
the error propagates; the fd is in fact still stored in the instance. -/
theorem C1_counterexample :
    (CuFile.openFile initSt (.ok 42) { err := -2, cu_err := 100 } 0).2.2 =
      .error (.runtimeError "cuFileHandleRegister"
        { err := -2, cu_err := 100 }) ∧
    countOsClose
      (CuFile.openFile initSt (.ok 42) { err := -2, cu_err := 100 } 0).2.1
      = 0 ∧
    ¬ countOsClose
        (CuFile.openFile initSt (.ok 42) { err := -2, cu_err := 100 } 0).2.1
        = 1 ∧
    (CuFile.openFile initSt (.ok 42) { err := -2, cu_err := 100 } 0).1.handle
      = some 42 :=
  ⟨rfl, rfl, by decide, rfl⟩

/-- C1 as amended: when the OS open succeeds with some fd and the native
registration then fails, the registration error propagates to the caller
WITHOUT any OS close being issued: the descriptor stays stored in the
instance (which even reports itself open), so it is leaked until a later
close or destruction. -/
theorem C1_amended_register_failure_leaks_fd (st : CuFileSt)
    (h : st.handle = none) (fd regHandle : Nat) (regStatus : CUfileError)
    (hreg : regStatus.err ≠ 0) :
    (CuFile.openFile st (.ok fd) regStatus regHandle).2.2 =
      .error (.runtimeError "cuFileHandleRegister" regStatus) ∧
    countOsClose (CuFile.openFile st (.ok fd) regStatus regHandle).2.1 = 0 ∧
    (CuFile.openFile st (.ok fd) regStatus regHandle).1.handle = some fd ∧
    (CuFile.openFile st (.ok fd) regStatus regHandle).1.is_open = true := by
  refine ⟨?_, ?_, ?_, ?_⟩ <;>
    simp [CuFile.openFile, cuFileHandleRegister, _ck, CuFileSt.is_open, h,
      hreg, countOsClose, Event.isOsClose]

/-- Witness for the amended C1 at the fresh state with fd 42 and a failing
registration status. -/
theorem C1_witness :
    initSt.handle = none ∧
    ({ err := -2, cu_err := 100 } : CUfileError).err ≠ 0 ∧
    ((CuFile.openFile initSt (.ok 42) { err := -2, cu_err := 100 } 9).2.2 =
      .error (.runtimeError "cuFileHandleRegister"
        { err := -2, cu_err := 100 }) ∧
    countOsClose
      (CuFile.openFile initSt (.ok 42) { err := -2, cu_err := 100 } 9).2.1
      = 0 ∧
    (CuFile.openFile initSt (.ok 42) { err := -2, cu_err := 100 } 9).1.handle
      = some 42 ∧
    (CuFile.openFile initSt (.ok 42) { err := -2, cu_err := 100 } 9).1.is_open
      = true) :=
  ⟨rfl, by decide,
   C1_amended_register_failure_leaks_fd initSt rfl 42 9
     { err := -2, cu_err := 100 } (by decide)⟩

/-- C2 counterexample: the state left behind by a registration failure is
reachable, reports itself open, holds the OS descriptor, yet has no native
handle — one resource without the other, refuting the claimed iff. -/
theorem C2_counterexample :
    Reachable leakSt ∧ leakSt.is_open = true ∧
    leakSt.handle.isSome = true ∧ leakSt.cu_file_handle.isSome = false :=
  ⟨Reachable.openStep initSt (.ok 42) { err := -2, cu_err := 100 } 0
      reachable_initSt,
   rfl, rfl, rfl⟩

/-- In every state reachable without a native registration failure, the
descriptor and the native handle are present or absent together. -/
lemma reachableOk_invariant (st : CuFileSt) (h : ReachableOk st) :
    st.handle.isSome = st.cu_file_handle.isSome := by
  induction h with
  | construct ds driverStatus path mode useDirect st h =>
    unfold CuFile.init at h
    split at h
    · simp at h
    · split at h
      · simp at h
      · rename_i heq2
        simp only [Except.ok.injEq] at h
        subst h
        rfl
  | openStep st osRes regStatus regHandle hreg h ih =>
    have hreg2 : ∀ fd : Nat, cuFileHandleRegister fd regStatus regHandle =
        .ok regHandle := by
      intro fd
      simp [cuFileHandleRegister, _ck, hreg]
    cases hopen : st.is_open with
    | true => simpa [CuFile.openFile, hopen] using ih
    | false =>
      cases osRes with
      | error e => simpa [CuFile.openFile, hopen] using ih
      | ok fd => simp [CuFile.openFile, hopen, hreg2]
  | closeStep st deregStatus h ih =>
    cases hopen : st.is_open with
    | true => simp [CuFile.close, hopen]
    | false => simpa [CuFile.close, hopen] using ih

/-- C2 as amended: in every reachable state of a CuFile instance in which the
native registration succeeded whenever open attempted it, is_open is true iff
both the OS descriptor and the native handle are present; after a
registration failure, however, the instance holds the descriptor without the
native handle (see the counterexample), so the unrestricted claim fails. -/
theorem C2_amended_invariant (st : CuFileSt) (h : ReachableOk st) :
    st.is_open = true ↔
      (st.handle.isSome = true ∧ st.cu_file_handle.isSome = true) := by
  have hi := reachableOk_invariant st h
  unfold CuFileSt.is_open
  constructor
  · intro h1
    exact ⟨h1, by rw [← hi]; exact h1⟩
  · intro h1
    exact h1.1

/-- Witness for the amended C2 at the freshly constructed state. -/
theorem C2_witness :
    ReachableOk initSt ∧
    (initSt.is_open = true ↔
      (initSt.handle.isSome = true ∧ initSt.cu_file_handle.isSome = true)) :=
  ⟨reachableOk_initSt, C2_amended_invariant initSt reachableOk_initSt⟩

/-! ### Deregistration-status behaviour of close (claim C3) -/

/-- C3 counterexample: closing the successfully opened state while the native
deregistration reports the failing status err = -1, cu_err = 5 returns
normally — no error value of any kind is produced, refuting that the failure
is reported via HandleDeregisterError — although the deregistration is indeed
issued before the OS close and the descriptor is closed. -/
theorem C3_counterexample :
    (CuFile.close openSt { err := -1, cu_err := 5 }).2.2 = .ok () ∧
    (CuFile.close openSt { err := -1, cu_err := 5 }).2.1 =
      [.natHandleDeregister (some 7), .osClose 42] :=
  ⟨rfl, rfl⟩

/-- C3 as amended: close() on an Open handle issues the native deregistration
first and then the OS close, in that exact order, and ends Closed with both
attributes cleared; the native deregistration status is entirely ignored (its
failures are silently swallowed rather than reported), and in particular the
OS descriptor is closed whatever that status is. -/
theorem C3_amended_close_ignores_dereg_status (st : CuFileSt) (fd : Nat)
    (h : st.handle = some fd) (deregStatus : CUfileError) :
    CuFile.close st deregStatus =
      ({ st with handle := none, cu_file_handle := none },
       [.natHandleDeregister st.cu_file_handle, .osClose fd], .ok ()) := by
  simp [CuFile.close, CuFileSt.is_open, h]

/-- Witness for the amended C3 at the opened state with a failing
deregistration status. -/
theorem C3_witness :
    openSt.handle = some 42 ∧
    CuFile.close openSt { err := -9, cu_err := 9 } =
      ({ openSt with handle := none, cu_file_handle := none },
       [.natHandleDeregister openSt.cu_file_handle, .osClose 42], .ok ()) :=
  ⟨rfl, C3_amended_close_ignores_dereg_status openSt 42 rfl
    { err := -9, cu_err := 9 }⟩

end CufilePython
